import Mathlib

/-!
Verification of the `PolarsDataset` adapter
(`kedro_datasets/polars/polars_dataset.py`): a shallow embedding of the
adapter construction, load, save, existence-check and release operations,
together with theorems about the properties the adapter is documented to have.

External collaborators (the polars dataframe engine, the fsspec filesystem
abstraction and the kedro versioned-dataset framework) are consumed by the
adapter only through their interfaces; they are modelled here by explicit
parameters (an `Engine` record, resolver arguments, a `FileSystem` state),
while every branch of the adapter code itself is translated faithfully.
-/

set_option autoImplicit false

namespace PolarsSpec

/-- Option dictionaries (Python `dict`): association lists keyed by strings,
insertion-ordered, with unique keys in any dictionary Python can build. -/
abbrev Dict := List (String × String)

/-- Python `d[k] = v` / `dict.update` single step: overwrite the first binding
of `k` in place, or append a fresh binding at the end. Polymorphic in the
value type so the same model serves option dictionaries and the file map. -/
def dictSet {α : Type} : List (String × α) → String → α → List (String × α)
  | [], k, v => [(k, v)]
  | (k1, v1) :: rest, k, v =>
      if k1 = k then (k, v) :: rest else (k1, v1) :: dictSet rest k v

/-- Python `d.get(k)`: the first binding of `k`, if any. -/
def dictGet {α : Type} : List (String × α) → String → Option α
  | [], _ => none
  | (k1, v1) :: rest, k => if k1 = k then some v1 else dictGet rest k

/-- Python `k in d`. -/
def dictContains {α : Type} (d : List (String × α)) (k : String) : Bool :=
  (dictGet d k).isSome

/-- Python `d.pop(k, None)`: remove every binding of `k` (at most one in a
real Python dict). -/
def dictPop {α : Type} : List (String × α) → String → List (String × α)
  | [], _ => []
  | (k1, v1) :: rest, k =>
      if k1 = k then dictPop rest k else (k1, v1) :: dictPop rest k

/-- Python `d1.update(d2)`: fold the bindings of `d2` into `d1` in order. -/
def dictUpdate {α : Type} (d1 : List (String × α)) : List (String × α) → List (String × α)
  | [] => d1
  | (k, v) :: rest => dictUpdate (dictSet d1 k v) rest

/-- Python `d.setdefault(k, v)`: append `(k, v)` only when `k` is absent. -/
def dictSetdefault (d : Dict) (k v : String) : Dict :=
  if dictContains d k then d else d ++ [(k, v)]

/-- Python `str.lower()`: lowercase the characters of the string. -/
def pyLower (s : String) : String := ⟨s.data.map Char.toLower⟩

/-- Equality of `Except` values is decidable when both components are. -/
instance {α β : Type} [DecidableEq α] [DecidableEq β] : DecidableEq (Except α β) :=
  fun a b =>
    match a, b with
    | .ok x, .ok y =>
        if h : x = y then .isTrue (congrArg Except.ok h)
        else .isFalse (fun hh => h (Except.ok.inj hh))
    | .error x, .error y =>
        if h : x = y then .isTrue (congrArg Except.error h)
        else .isFalse (fun hh => h (Except.error.inj hh))
    | .ok _, .error _ => .isFalse (fun hh => Except.noConfusion hh)
    | .error _, .ok _ => .isFalse (fun hh => Except.noConfusion hh)

/-- `ACCEPTED_FILE_FORMATS` from the source module. -/
def ACCEPTED_FILE_FORMATS : List String := ["csv", "parquet"]

/-- `kedro.io.core.Version`: independent optional load/save version selectors. -/
structure Version where
  load : Option String
  save : Option String
deriving DecidableEq, Repr

/-- Splits a character list at the first protocol delimiter `://`, when one
occurs. -/
def splitAtDelim : List Char → Option (List Char × List Char)
  | [] => none
  | ':' :: '/' :: '/' :: rest => some ([], rest)
  | c :: rest => (splitAtDelim rest).map (fun p => (c :: p.1, p.2))

/-- Models `kedro.io.core.get_protocol_and_path`: split a protocol prefix off
the filepath, defaulting to the local `file` protocol. -/
def get_protocol_and_path (filepath : String) : String × String :=
  match splitAtDelim filepath.data with
  | some (proto, path) => (⟨proto⟩, ⟨path⟩)
  | none => ("file", filepath)

/-- `HTTP_PROTOCOLS` from `kedro.io.core`. -/
def HTTP_PROTOCOLS : List String := ["http", "https"]

/-- Models `kedro.io.core.get_filepath_str`: only http-like protocols get the
protocol written back into the path string. -/
def get_filepath_str (path protocol : String) : String :=
  if HTTP_PROTOCOLS.contains protocol then protocol ++ "://" ++ path else path

/-- The configuration fields a `PolarsDataset` instance stores at
construction time (`self._file_format`, `self._protocol`, `self._filepath`,
`self._load_args`, `self._save_args`, `self._storage_options`,
`self._version`). -/
structure Config where
  file_format : String
  protocol : String
  filepath : String
  load_args : Dict
  save_args : Dict
  storage_options : Dict
  version : Option Version
deriving DecidableEq, Repr

/-- Result of a successful construction: the stored configuration, plus
whether the storage-options warning was emitted. -/
structure InitResult where
  config : Config
  warned : Bool
deriving DecidableEq, Repr

/-- `DEFAULT_LOAD_ARGS` class attribute (empty). -/
def DEFAULT_LOAD_ARGS : Dict := []

/-- `DEFAULT_SAVE_ARGS` class attribute (empty). -/
def DEFAULT_SAVE_ARGS : Dict := []

/-- Message of the `DatasetError` raised for a rejected file format. -/
def formatNotAcceptedMsg : String :=
  "is not an accepted format, ensure that your file_format parameter has been defined correctly as per the Polars Lazy API"

/-- `PolarsDataset.__init__`: normalize the format and reject it when outside
the accepted set; derive protocol and path; default `auto_mkdir` for the
local protocol; merge credentials and fs arguments into the storage options;
merge the supplied load/save options onto the (empty) defaults; strip a
`storage_options` key out of both with a warning when present in either.
The construction of the live fsspec filesystem handle and the metadata blob
are side effects outside the stored configuration and are not modelled. -/
def PolarsDataset.init (filepath file_format : String)
    (load_args save_args : Option Dict) (version : Option Version)
    (credentials fs_args : Option Dict) : Except String InitResult :=
  let fmt := pyLower file_format
  if !(ACCEPTED_FILE_FORMATS.contains fmt) then
    .error formatNotAcceptedMsg
  else
    let fsArgs0 := fs_args.getD []
    let creds := credentials.getD []
    let pp := get_protocol_and_path filepath
    let protocol := pp.1
    let path := pp.2
    let fsArgs :=
      if protocol = "file" then dictSetdefault fsArgs0 "auto_mkdir" "True" else fsArgs0
    let storageOptions := dictUpdate creds fsArgs
    let la0 := dictUpdate DEFAULT_LOAD_ARGS (load_args.getD [])
    let sa0 := dictUpdate DEFAULT_SAVE_ARGS (save_args.getD [])
    let warned := dictContains sa0 "storage_options" || dictContains la0 "storage_options"
    let sa := if warned then dictPop sa0 "storage_options" else sa0
    let la := if warned then dictPop la0 "storage_options" else la0
    .ok ⟨⟨fmt, protocol, path, la, sa, storageOptions, version⟩, warned⟩

/-- A row of a materialized dataframe. Dataframe internals belong to the
external engine; rows of integers are enough to carry identity through the
adapter, which never inspects them. -/
abbrev Row := List Int

/-- A materialized `polars.DataFrame` value (as far as the adapter can
observe it). -/
structure DataFrame where
  rows : List Row
deriving DecidableEq, Repr

/-- Serialized file contents. The adapter only moves buffers around without
inspecting them, so an opaque payload type suffices. -/
abbrev Bytes := List Row

/-- The `Union[pl.DataFrame, pl.LazyFrame]` argument of `_save`; a lazy frame
carries the dataframe its `collect()` call produces. -/
inductive PolarsFrameArg where
  | lazy (collectsTo : DataFrame)
  | eager (df : DataFrame)
deriving DecidableEq, Repr

/-- Lines 218-222 of `_save`: `data.collect()` on a lazy frame, identity on a
materialized one. -/
def PolarsFrameArg.collect : PolarsFrameArg → DataFrame
  | .lazy d => d
  | .eager d => d

/-- State of the fsspec filesystem visible to the adapter: file contents by
path, the set of existing directories, and the set of paths with live
directory-cache entries. -/
structure FileSystem where
  files : List (String × Bytes)
  dirs : List String
  cache : List String
deriving DecidableEq, Repr

/-- Contents at a path, if a file exists there. -/
def FileSystem.read (fs : FileSystem) (p : String) : Option Bytes :=
  dictGet fs.files p

/-- `fs.exists(path)`. -/
def FileSystem.pathExists (fs : FileSystem) (p : String) : Bool :=
  (fs.read p).isSome || fs.dirs.contains p

/-- `Path(path).is_dir()`. -/
def FileSystem.isDir (fs : FileSystem) (p : String) : Bool :=
  fs.dirs.contains p

/-- `fs.open(path, mode="wb")` followed by writing the whole buffer:
truncate/overwrite the file at the path. -/
def FileSystem.write (fs : FileSystem) (p : String) (b : Bytes) : FileSystem :=
  { fs with files := dictSet fs.files p b }

/-- `fs.invalidate_cache(path)`: drop the cache entry for `path`. -/
def FileSystem.invalidate_cache (fs : FileSystem) (p : String) : FileSystem :=
  { fs with cache := fs.cache.filter (fun q => !(q = p)) }

/-- Whether a live cache entry exists for `path`. -/
def FileSystem.cacheContains (fs : FileSystem) (p : String) : Bool :=
  fs.cache.contains p

/-- Attributes of the external `polars` module that the dynamic
`getattr(pl, "scan_" + file_format, None)` lookup of `_load` can hit
(the polars lazy-scan API surface). -/
def pl_module_attrs : List String :=
  ["scan_csv", "scan_parquet", "scan_ipc", "scan_ndjson"]

/-- Attributes of the external `polars.DataFrame` type that the dynamic
`getattr(collected_data, "write_" + file_format, None)` lookup of `_save`
can hit (the polars eager write API surface). -/
def df_write_attrs : List String :=
  ["write_csv", "write_parquet", "write_ipc", "write_ndjson", "write_json"]

/-- The `pyarrow.dataset.dataset(load_path, filesystem=self._fs,
format=self._file_format)` view built on the remote branch of `_load`:
format-aware, bound to the resolved path and the adapter filesystem handle
(identified by its protocol and storage options). -/
structure PyArrowDs where
  source : String
  format : String
  fsProtocol : String
  fsOptions : Dict
deriving DecidableEq, Repr

/-- The lazy frame `_load` returns: either a native
`pl.scan_<file_format>(load_path, **load_args)` scan, or
`pl.scan_pyarrow_dataset(ds)` over a pyarrow dataset view. The remote
constructor has no load-arguments field because the code forwards none. -/
inductive LazyFrame where
  | scan (file_format path : String) (args : Dict)
  | scanPyarrowDataset (dataset : PyArrowDs)
deriving DecidableEq, Repr

/-- Errors `_load` can raise: a `DatasetError` propagated from
`_get_load_path` resolution, or the `TypeError` from calling the `None`
result of a missed `getattr` lookup. -/
inductive LoadError where
  | resolutionError (msg : String)
  | scanMethodMissing
deriving DecidableEq, Repr

/-- Errors `_save` can raise, one constructor per raise site: a
`DatasetError` propagated from `_get_save_path` resolution, the
directory-target `DatasetError`, the `partition_cols` `DatasetError`, and
the missing-write-method `DatasetError`. -/
inductive SaveError where
  | resolutionError (msg : String)
  | directoryTarget
  | partitionColsUnsupported
  | noWriteMethod
deriving DecidableEq, Repr

/-- Every raise site of `_save` constructs `DatasetError`. -/
def SaveError.isDatasetError : SaveError → Bool
  | .resolutionError _ => true
  | .directoryTarget => true
  | .partitionColsUnsupported => true
  | .noWriteMethod => true

/-- The external polars I/O routines the adapter dispatches to: the
`write_<fmt>` serializer, the forcing of a native `scan_<fmt>` lazy frame
over file bytes, and the forcing of a `scan_pyarrow_dataset` lazy frame
over file bytes. -/
structure Engine where
  write : String → DataFrame → Dict → Bytes
  scanCollect : String → Bytes → Dict → DataFrame
  remoteCollect : String → Bytes → DataFrame

/-- `PolarsDataset._load`. `glp` is the result of the external
`self._get_load_path()` resolution (a `DatasetError` message on failure);
the code applies plain `str` to it, no `get_filepath_str`. Local protocol:
dynamic scan-routine lookup, called with the path and the configured load
options. Otherwise: a pyarrow dataset view over the adapter filesystem,
wrapped in `scan_pyarrow_dataset` (no load options forwarded). -/
def PolarsDataset.load (cfg : Config) (glp : Except String String) :
    Except LoadError LazyFrame :=
  match glp with
  | .error msg => .error (.resolutionError msg)
  | .ok load_path =>
    if cfg.protocol = "file" then
      if pl_module_attrs.contains ("scan_" ++ cfg.file_format) then
        .ok (.scan cfg.file_format load_path cfg.load_args)
      else
        .error .scanMethodMissing
    else
      .ok (.scanPyarrowDataset ⟨load_path, cfg.file_format, cfg.protocol, cfg.storage_options⟩)

/-- `PolarsDataset._save`. `gsp` is the result of the external
`self._get_save_path()` resolution. The filesystem state is threaded
explicitly; a raise before the write returns the state unchanged. On the
write path the serialized buffer is written to the resolved save path and
then `_invalidate_cache` drops the cache entry for the BASE filepath
(`self._filepath`, line 253), not for the save path. -/
def PolarsDataset.save (e : Engine) (cfg : Config) (gsp : Except String String)
    (fs : FileSystem) (data : PolarsFrameArg) :
    Except SaveError Unit × FileSystem :=
  match gsp with
  | .error msg => (.error (.resolutionError msg), fs)
  | .ok sp =>
    let save_path := get_filepath_str sp cfg.protocol
    if fs.isDir save_path then
      (.error .directoryTarget, fs)
    else if dictContains cfg.save_args "partition_cols" then
      (.error .partitionColsUnsupported, fs)
    else
      let collected_data := data.collect
      if df_write_attrs.contains ("write_" ++ cfg.file_format) then
        let buf := e.write cfg.file_format collected_data cfg.save_args
        let fs1 := fs.write save_path buf
        (.ok (), fs1.invalidate_cache (get_filepath_str cfg.filepath cfg.protocol))
      else
        (.error .noWriteMethod, fs)

/-- `PolarsDataset._exists`: resolve the load path, returning `false` when
resolution raises `DatasetError`, else delegate to `fs.exists` on
`get_filepath_str` of the resolved path. -/
def PolarsDataset.checkExists (cfg : Config) (glp : Except String String)
    (fs : FileSystem) : Bool :=
  match glp with
  | .error _ => false
  | .ok lp => fs.pathExists (get_filepath_str lp cfg.protocol)

/-- `PolarsDataset._release`: after the framework release (external, no
adapter state), `_invalidate_cache` on the base filepath. -/
def PolarsDataset.release (cfg : Config) (fs : FileSystem) : FileSystem :=
  fs.invalidate_cache (get_filepath_str cfg.filepath cfg.protocol)

/-- Forcing evaluation of a lazy frame returned by `_load` against the
current filesystem: read the scanned file and decode it with the
corresponding engine routine. -/
def forceEval (e : Engine) (fs : FileSystem) : LazyFrame → Option DataFrame
  | .scan fmt path args => (fs.read path).map (fun b => e.scanCollect fmt b args)
  | .scanPyarrowDataset d => (fs.read d.source).map (fun b => e.remoteCollect d.format b)

/-- A trivial concrete engine whose buffers are the row payload itself; its
write/scan pair round-trips definitionally. Used to instantiate theorems at
concrete inputs. -/
def trivEngine : Engine :=
  ⟨fun _ d _ => d.rows, fun _ b _ => ⟨b⟩, fun _ b => ⟨b⟩⟩

/-- The adapter instance state together with the external filesystem state,
for expressing that operations never mutate the configuration. -/
structure AdapterState where
  config : Config
  fs : FileSystem

/-- The operations of the adapter lifecycle after construction, with the
externally resolved paths an operation consumes. -/
inductive Op where
  | load (glp : Except String String)
  | save (data : PolarsFrameArg) (gsp : Except String String)
  | checkExists (glp : Except String String)
  | release

/-- Effect of one lifecycle operation on the adapter-plus-filesystem state:
load and the existence check mutate nothing, save threads the filesystem
through `_save`, release invalidates the base-path cache entry. No
operation yields a new configuration. -/
def applyOp (e : Engine) (s : AdapterState) : Op → AdapterState
  | .load _ => s
  | .save data gsp => { s with fs := (PolarsDataset.save e s.config gsp s.fs data).2 }
  | .checkExists _ => s
  | .release => { s with fs := PolarsDataset.release s.config s.fs }

/-- Lookup after an overwriting insert: the inserted key maps to the new
value, every other key is untouched. -/
theorem dictGet_set {α : Type} (d : List (String × α)) (k : String) (v : α) (k' : String) :
    dictGet (dictSet d k v) k' = if k = k' then some v else dictGet d k' := by
  induction d with
  | nil =>
      by_cases h : k = k' <;> simp [dictSet, dictGet, h]
  | cons q rest ih =>
      obtain ⟨k1, v1⟩ := q
      by_cases h1 : k1 = k
      · subst h1
        by_cases h2 : k1 = k' <;> simp [dictSet, dictGet, h2]
      · by_cases h2 : k1 = k'
        · subst h2
          have hne : ¬ k = k1 := fun hh => h1 hh.symm
          simp [dictSet, dictGet, h1, hne]
        · simp [dictSet, dictGet, h1, h2, ih]

/-- Lookup after removing a key: the removed key is gone, every other key is
untouched. -/
theorem dictGet_pop {α : Type} (d : List (String × α)) (k k' : String) :
    dictGet (dictPop d k) k' = if k = k' then none else dictGet d k' := by
  induction d with
  | nil => by_cases h : k = k' <;> simp [dictPop, dictGet, h]
  | cons q rest ih =>
      obtain ⟨k1, v1⟩ := q
      by_cases h1 : k1 = k
      · subst h1
        by_cases h2 : k1 = k'
        · subst h2
          simp [dictPop, dictGet, ih]
        · simp [dictPop, dictGet, ih, h2]
      · by_cases h2 : k1 = k'
        · subst h2
          have hne : ¬ k = k1 := fun hh => h1 hh.symm
          simp [dictPop, dictGet, h1, hne]
        · simp [dictPop, dictGet, h1, h2, ih]

/-- Key membership after an overwriting insert. -/
theorem dictContains_set {α : Type} (d : List (String × α)) (k : String) (v : α) (k' : String) :
    dictContains (dictSet d k v) k' = if k = k' then true else dictContains d k' := by
  by_cases h : k = k' <;> simp [dictContains, dictGet_set, h]

/-- Key membership after a merge is key membership in either operand. -/
theorem dictContains_update {α : Type} (d1 d2 : List (String × α)) (k : String) :
    dictContains (dictUpdate d1 d2) k = (dictContains d1 k || dictContains d2 k) := by
  induction d2 generalizing d1 with
  | nil => simp [dictUpdate, dictContains, dictGet]
  | cons q rest ih =>
      obtain ⟨k2, v2⟩ := q
      rw [dictUpdate, ih, dictContains_set]
      by_cases h : k2 = k <;> simp [dictContains, dictGet, h]

/-- Reading back the path just written yields the written buffer; cache
invalidation does not disturb file contents. -/
theorem read_write_invalidate (fs : FileSystem) (p : String) (b : Bytes) (q : String) :
    ((fs.write p b).invalidate_cache q).read p = some b := by
  simp [FileSystem.write, FileSystem.invalidate_cache, FileSystem.read, dictGet_set]

/-- Invalidation removes the cache entry for the given path. -/
theorem cacheContains_invalidate_self (fs : FileSystem) (p : String) :
    (fs.invalidate_cache p).cacheContains p = false := by
  simp only [FileSystem.invalidate_cache, FileSystem.cacheContains]
  induction fs.cache with
  | nil => rfl
  | cons a rest ih =>
      by_cases ha : a = p
      · simp [List.filter, ha, ih]
      · have ha' : ¬ p = a := fun hh => ha hh.symm
        simp [List.filter, ha, ha', ih]

/-- The accepted-format check only lets `csv` and `parquet` through. -/
theorem accepted_cases {f : String} (h : ACCEPTED_FILE_FORMATS.contains f = true) :
    f = "csv" ∨ f = "parquet" := by
  have hm : f ∈ ACCEPTED_FILE_FORMATS := by
    simpa using h
  simpa [ACCEPTED_FILE_FORMATS] using hm

/-- Both accepted formats have a `scan_` attribute on the polars module. -/
theorem scan_attr_of_accepted {f : String}
    (h : ACCEPTED_FILE_FORMATS.contains f = true) :
    pl_module_attrs.contains ("scan_" ++ f) = true := by
  rcases accepted_cases h with h | h <;> rw [h] <;> decide

/-- Both accepted formats have a `write_` attribute on `polars.DataFrame`. -/
theorem write_attr_of_accepted {f : String}
    (h : ACCEPTED_FILE_FORMATS.contains f = true) :
    df_write_attrs.contains ("write_" ++ f) = true := by
  rcases accepted_cases h with h | h <;> rw [h] <;> decide

/-- A single lifecycle operation never yields a new configuration. -/
theorem applyOp_config (e : Engine) (s : AdapterState) (op : Op) :
    (applyOp e s op).config = s.config := by
  cases op <;> rfl

/-- Any sequence of lifecycle operations leaves the configuration of the
state untouched. -/
theorem foldl_applyOp_config (e : Engine) (ops : List Op) :
    ∀ s : AdapterState, (ops.foldl (applyOp e) s).config = s.config := by
  induction ops with
  | nil => intro s; rfl
  | cons op rest ih =>
      intro s
      rw [List.foldl_cons, ih (applyOp e s op), applyOp_config]

/-- Claim C2: construction with a file-format string whose lowercased form is
outside the accepted set always fails with the descriptive dataset error,
and any format string whose lowercased form is csv or parquet passes the
format check (construction succeeds). -/
theorem c2_file_format_validation
    (filepath file_format : String) (la sa : Option Dict) (v : Option Version)
    (cred fsa : Option Dict) :
    (ACCEPTED_FILE_FORMATS.contains (pyLower file_format) = false →
      PolarsDataset.init filepath file_format la sa v cred fsa =
        .error formatNotAcceptedMsg) ∧
    (ACCEPTED_FILE_FORMATS.contains (pyLower file_format) = true →
      ∃ r, PolarsDataset.init filepath file_format la sa v cred fsa = .ok r) := by
  constructor
  · intro h
    simp only [PolarsDataset.init, h, Bool.not_false, if_pos]
  · intro h
    cases hX : PolarsDataset.init filepath file_format la sa v cred fsa with
    | ok r => exact ⟨r, rfl⟩
    | error e =>
        simp only [PolarsDataset.init, h, Bool.not_true, Bool.false_eq_true, if_false] at hX
        exact Except.noConfusion hX

/-- Concrete instantiation of the C2 theorem: a `json` format is rejected,
an uppercase `CSV` format passes the check. -/
theorem c2_witness :
    PolarsDataset.init "test.json" "json" none none none none none =
      .error formatNotAcceptedMsg ∧
    (∃ r, PolarsDataset.init "test.csv" "CSV" none none none none none = .ok r) :=
  ⟨(c2_file_format_validation "test.json" "json" none none none none none).1 (by decide),
   (c2_file_format_validation "test.csv" "CSV" none none none none none).2 (by decide)⟩

/-- Claim C5: when `storage_options` occurs in the supplied load or save
options, construction warns and removes the key from both effective option
mappings, preserving every other key. -/
theorem c5_storage_options_stripped
    (filepath file_format : String) (la sa : Option Dict) (v : Option Version)
    (cred fsa : Option Dict) (r : InitResult)
    (hinit : PolarsDataset.init filepath file_format la sa v cred fsa = .ok r)
    (hkey : dictContains (la.getD []) "storage_options" = true ∨
            dictContains (sa.getD []) "storage_options" = true) :
    r.warned = true ∧
    dictContains r.config.load_args "storage_options" = false ∧
    dictContains r.config.save_args "storage_options" = false ∧
    (∀ k, k ≠ "storage_options" →
      dictGet r.config.load_args k =
        dictGet (dictUpdate DEFAULT_LOAD_ARGS (la.getD [])) k ∧
      dictGet r.config.save_args k =
        dictGet (dictUpdate DEFAULT_SAVE_ARGS (sa.getD [])) k) := by
  simp only [PolarsDataset.init] at hinit
  split at hinit
  · exact absurd hinit (by simp)
  · have hwarn :
        (dictContains (dictUpdate DEFAULT_SAVE_ARGS (sa.getD [])) "storage_options" ||
         dictContains (dictUpdate DEFAULT_LOAD_ARGS (la.getD [])) "storage_options") = true := by
      rw [dictContains_update, dictContains_update]
      rcases hkey with h | h <;>
        simp only [dictContains] at h <;>
        simp [DEFAULT_LOAD_ARGS, DEFAULT_SAVE_ARGS, dictContains, dictGet, h]
    rw [hwarn] at hinit
    simp only [if_pos rfl] at hinit
    injection hinit with h
    subst h
    refine ⟨rfl, ?_, ?_, ?_⟩
    · simp [dictContains, dictGet_pop]
    · simp [dictContains, dictGet_pop]
    · intro k hk
      have hk' : ¬ ("storage_options" = k) := fun hh => hk hh.symm
      constructor <;> simp [dictGet_pop, hk']

/-- Concrete instantiation of the C5 theorem: supplying
`storage_options` inside load options warns, the effective load options
keep `sep` and drop `storage_options`, the save options stay clean. -/
theorem c5_witness :
    (⟨⟨"csv", "file", "test.csv", [("sep", ",")], [], [("auto_mkdir", "True")], none⟩,
        true⟩ : InitResult).warned = true ∧
    dictContains (⟨⟨"csv", "file", "test.csv", [("sep", ",")], [],
        [("auto_mkdir", "True")], none⟩, true⟩ : InitResult).config.load_args
      "storage_options" = false ∧
    dictGet (⟨⟨"csv", "file", "test.csv", [("sep", ",")], [],
        [("auto_mkdir", "True")], none⟩, true⟩ : InitResult).config.load_args "sep" =
      dictGet (dictUpdate DEFAULT_LOAD_ARGS
        [("storage_options", "x"), ("sep", ",")]) "sep" := by
  have h := c5_storage_options_stripped "test.csv" "csv"
    (some [("storage_options", "x"), ("sep", ",")]) none none none none
    ⟨⟨"csv", "file", "test.csv", [("sep", ",")], [], [("auto_mkdir", "True")], none⟩, true⟩
    (by decide) (Or.inl (by decide))
  exact ⟨h.1, h.2.1, (h.2.2.2 "sep" (by decide)).1⟩

/-- Claim C3: with `partition_cols` among the merged save options, every call
to save raises a dataset error and returns with the filesystem unchanged
(no bytes serialized, no write opened). -/
theorem c3_partition_cols_rejected
    (e : Engine) (cfg : Config) (gsp : Except String String) (fs : FileSystem)
    (data : PolarsFrameArg)
    (h : dictContains cfg.save_args "partition_cols" = true) :
    ∃ err, PolarsDataset.save e cfg gsp fs data = (.error err, fs) ∧
      err.isDatasetError = true := by
  cases gsp with
  | error msg => exact ⟨.resolutionError msg, rfl, rfl⟩
  | ok sp =>
      by_cases hd : fs.isDir (get_filepath_str sp cfg.protocol) = true
      · exact ⟨.directoryTarget, by simp [PolarsDataset.save, hd], rfl⟩
      · exact ⟨.partitionColsUnsupported, by simp [PolarsDataset.save, hd, h], rfl⟩

/-- Concrete instantiation of the C3 theorem: a csv dataset with
`partition_cols` in its save options refuses to save and leaves an empty
filesystem empty. -/
theorem c3_witness :
    dictContains ([("partition_cols", "a")] : Dict) "partition_cols" = true ∧
    ∃ err, PolarsDataset.save trivEngine
        ⟨"csv", "file", "test.csv", [], [("partition_cols", "a")], [], none⟩
        (.ok "test.csv") ⟨[], [], []⟩ (.eager ⟨[[1]]⟩) =
      (.error err, ⟨[], [], []⟩) ∧ err.isDatasetError = true :=
  ⟨by decide,
   c3_partition_cols_rejected trivEngine
     ⟨"csv", "file", "test.csv", [], [("partition_cols", "a")], [], none⟩
     (.ok "test.csv") ⟨[], [], []⟩ (.eager ⟨[[1]]⟩) (by decide)⟩

/-- Claim C4: when the resolved save path denotes an existing directory, save
fails with the directory-target dataset error and the filesystem state is
returned unchanged: no file is created or altered. -/
theorem c4_directory_target_rejected
    (e : Engine) (cfg : Config) (sp : String) (fs : FileSystem)
    (data : PolarsFrameArg)
    (h : fs.isDir (get_filepath_str sp cfg.protocol) = true) :
    PolarsDataset.save e cfg (.ok sp) fs data = (.error .directoryTarget, fs) := by
  simp [PolarsDataset.save, h]

/-- Concrete instantiation of the C4 theorem: saving onto an existing
directory `data` fails and the filesystem is unchanged. -/
theorem c4_witness :
    FileSystem.isDir ⟨[], ["data"], []⟩ (get_filepath_str "data" "file") = true ∧
    PolarsDataset.save trivEngine ⟨"csv", "file", "data", [], [], [], none⟩
        (.ok "data") ⟨[], ["data"], []⟩ (.eager ⟨[[1]]⟩) =
      (.error .directoryTarget, ⟨[], ["data"], []⟩) :=
  ⟨by decide,
   c4_directory_target_rejected trivEngine ⟨"csv", "file", "data", [], [], [], none⟩
     "data" ⟨[], ["data"], []⟩ (.eager ⟨[[1]]⟩) (by decide)⟩

/-- A local csv configuration, exactly what construction builds from
`filepath` `test.csv` and `file_format` `csv` with all optional arguments
omitted. -/
def localCsvConfig : Config :=
  ⟨"csv", "file", "test.csv", [], [], [("auto_mkdir", "True")], none⟩

/-- Claim C6 as stated: every successful save invalidates the
filesystem-level cache entry for the written (resolved, possibly versioned)
path. Refuted below: `_invalidate_cache` invalidates the base
`self._filepath`, which differs from the written path whenever a version
resolver returns a versioned path. -/
def writtenPathCacheInvalidation : Prop :=
  ∀ (e : Engine) (cfg : Config) (sp : String) (fs : FileSystem)
    (data : PolarsFrameArg) (fs' : FileSystem),
    PolarsDataset.save e cfg (.ok sp) fs data = (.ok (), fs') →
    fs'.cacheContains (get_filepath_str sp cfg.protocol) = false

/-- Claim C6, counterexample: a versioned save path
`data/file.csv/v1/file.csv` under base filepath `data/file.csv` keeps its
live cache entry across a successful save, because only the base path is
invalidated. -/
theorem c6_counterexample : ¬ writtenPathCacheInvalidation := fun h =>
  absurd
    (h trivEngine ⟨"csv", "file", "data/file.csv", [], [], [("auto_mkdir", "True")], none⟩
      "data/file.csv/v1/file.csv" ⟨[], [], ["data/file.csv/v1/file.csv"]⟩
      (.eager ⟨[[1]]⟩)
      ⟨[("data/file.csv/v1/file.csv", [[1]])], [], ["data/file.csv/v1/file.csv"]⟩
      (by decide))
    (by decide)

/-- Claim C6, amended: after every successful save the adapter invalidates
the filesystem-level cache entry for its base (unversioned) filepath — which
coincides with the written path exactly when the resolver returns the base
path, as it does for unversioned datasets. -/
theorem c6_base_filepath_cache_invalidated
    (e : Engine) (cfg : Config) (gsp : Except String String) (fs : FileSystem)
    (data : PolarsFrameArg) (fs' : FileSystem)
    (h : PolarsDataset.save e cfg gsp fs data = (.ok (), fs')) :
    fs'.cacheContains (get_filepath_str cfg.filepath cfg.protocol) = false := by
  cases gsp with
  | error msg => exact absurd h (by simp [PolarsDataset.save])
  | ok sp =>
      simp only [PolarsDataset.save] at h
      split at h
      · exact absurd h (by simp)
      · split at h
        · exact absurd h (by simp)
        · split at h
          · injection h with h1 h2
            subst h2
            exact cacheContains_invalidate_self _ _
          · exact absurd h (by simp)

/-- Concrete instantiation of the amended C6 theorem: an unversioned local
save drops the stale cache entry for `test.csv`. -/
theorem c6_witness :
    FileSystem.cacheContains ⟨[("test.csv", [[1]])], [], []⟩
      (get_filepath_str localCsvConfig.filepath localCsvConfig.protocol) = false :=
  c6_base_filepath_cache_invalidated trivEngine localCsvConfig (.ok "test.csv")
    ⟨[], [], ["test.csv"]⟩ (.eager ⟨[[1]]⟩) ⟨[("test.csv", [[1]])], [], []⟩ (by decide)

/-- Claim C7: when load-path resolution fails with the framework dataset
error, the existence check reports false instead of propagating it; when
resolution succeeds, the result is exactly the filesystem existence check on
the resolved path. -/
theorem c7_exists_resolution
    (cfg : Config) (glp : Except String String) (fs : FileSystem) :
    (∀ msg, glp = .error msg → PolarsDataset.checkExists cfg glp fs = false) ∧
    (∀ lp, glp = .ok lp →
      PolarsDataset.checkExists cfg glp fs =
        fs.pathExists (get_filepath_str lp cfg.protocol)) := by
  constructor
  · intro msg h
    subst h
    rfl
  · intro lp h
    subst h
    rfl

/-- Concrete instantiation of the C7 theorem: a failed resolution reports
non-existence, a successful one delegates to the filesystem. -/
theorem c7_witness :
    PolarsDataset.checkExists localCsvConfig (.error "no versions found") ⟨[], [], []⟩ =
      false ∧
    PolarsDataset.checkExists localCsvConfig (.ok "test.csv")
        ⟨[("test.csv", [[1]])], [], []⟩ =
      FileSystem.pathExists ⟨[("test.csv", [[1]])], [], []⟩
        (get_filepath_str "test.csv" localCsvConfig.protocol) :=
  ⟨(c7_exists_resolution localCsvConfig (.error "no versions found") ⟨[], [], []⟩).1
      "no versions found" rfl,
   (c7_exists_resolution localCsvConfig (.ok "test.csv")
      ⟨[("test.csv", [[1]])], [], []⟩).2 "test.csv" rfl⟩

/-- Claim C8: on the local protocol, load is the format-specific lazy scan of
the resolved path with all configured load options passed through; on any
other protocol it is a lazy scan wrapped around a format-aware pyarrow
dataset view over the filesystem handle, with no load options forwarded. -/
theorem c8_load_dispatch (cfg : Config) (lp : String)
    (hfmt : ACCEPTED_FILE_FORMATS.contains cfg.file_format = true) :
    (cfg.protocol = "file" →
      PolarsDataset.load cfg (.ok lp) =
        .ok (.scan cfg.file_format lp cfg.load_args)) ∧
    (cfg.protocol ≠ "file" →
      PolarsDataset.load cfg (.ok lp) =
        .ok (.scanPyarrowDataset
          ⟨lp, cfg.file_format, cfg.protocol, cfg.storage_options⟩)) := by
  have hscan := scan_attr_of_accepted hfmt
  constructor
  · intro hp
    simp [PolarsDataset.load, hp]
    simpa using hscan
  · intro hp
    simp [PolarsDataset.load, hp]

/-- Concrete instantiation of the C8 theorem, local branch: a local csv
dataset loads through the native csv scan with its load options. -/
theorem c8_witness :
    PolarsDataset.load localCsvConfig (.ok "test.csv") =
      .ok (.scan localCsvConfig.file_format "test.csv" localCsvConfig.load_args) :=
  (c8_load_dispatch localCsvConfig "test.csv" (by decide)).1 rfl

/-- Claim C9: across any sequence of load, save, existence-check and release
operations the stored configuration is unchanged; the only configuration
mutation the adapter ever performs is the construction-time stripping of
`storage_options` (proved with claim C5). -/
theorem c9_config_immutable (e : Engine) (cfg : Config) (fs : FileSystem)
    (ops : List Op) :
    (ops.foldl (applyOp e) ⟨cfg, fs⟩).config = cfg :=
  foldl_applyOp_config e ops ⟨cfg, fs⟩

/-- Claim C10: for any configuration produced by a successful construction,
the dynamic `scan_<format>` and `write_<format>` lookups never miss, so the
missing-scan-method crash of load and the unable-to-retrieve-write-method
error branch of save are unreachable. -/
theorem c10_dynamic_lookups_total
    (filepath file_format : String) (la sa : Option Dict) (v : Option Version)
    (cred fsa : Option Dict) (r : InitResult)
    (h : PolarsDataset.init filepath file_format la sa v cred fsa = .ok r) :
    pl_module_attrs.contains ("scan_" ++ r.config.file_format) = true ∧
    df_write_attrs.contains ("write_" ++ r.config.file_format) = true ∧
    (∀ glp, PolarsDataset.load r.config glp ≠ .error .scanMethodMissing) ∧
    (∀ (e : Engine) (gsp : Except String String) (fs : FileSystem)
        (data : PolarsFrameArg),
      (PolarsDataset.save e r.config gsp fs data).1 ≠ .error .noWriteMethod) := by
  have hfmt : ACCEPTED_FILE_FORMATS.contains r.config.file_format = true := by
    simp only [PolarsDataset.init] at h
    split at h
    · exact absurd h (by simp)
    · rename_i hcond
      injection h with h1
      subst h1
      simpa using hcond
  have hscanm : ("scan_" ++ r.config.file_format) ∈ pl_module_attrs := by
    simpa using scan_attr_of_accepted hfmt
  have hwm : ("write_" ++ r.config.file_format) ∈ df_write_attrs := by
    simpa using write_attr_of_accepted hfmt
  refine ⟨scan_attr_of_accepted hfmt, write_attr_of_accepted hfmt, ?_, ?_⟩
  · intro glp
    cases glp with
    | error msg => simp [PolarsDataset.load]
    | ok lp =>
        by_cases hp : r.config.protocol = "file"
        · simp [PolarsDataset.load, hp, hscanm]
        · simp [PolarsDataset.load, hp]
  · intro e gsp fs data
    cases gsp with
    | error msg => simp [PolarsDataset.save]
    | ok sp =>
        by_cases hd : fs.isDir (get_filepath_str sp r.config.protocol) = true
        · simp [PolarsDataset.save, hd]
        · by_cases hpcc : dictContains r.config.save_args "partition_cols" = true
          · simp [PolarsDataset.save, hd, hpcc]
          · simp [PolarsDataset.save, hd, hpcc, hwm]

/-- Concrete instantiation of the C10 theorem: for the configuration built
from `test.csv`/`csv`, both dynamic lookups hit and neither missing-method
error can be produced. -/
theorem c10_witness :
    pl_module_attrs.contains ("scan_" ++ localCsvConfig.file_format) = true ∧
    df_write_attrs.contains ("write_" ++ localCsvConfig.file_format) = true ∧
    PolarsDataset.load localCsvConfig (.ok "test.csv") ≠ .error .scanMethodMissing ∧
    (PolarsDataset.save trivEngine localCsvConfig (.ok "test.csv") ⟨[], [], []⟩
        (.eager ⟨[[1]]⟩)).1 ≠ .error .noWriteMethod := by
  have h := c10_dynamic_lookups_total "test.csv" "csv" none none none none none
    ⟨localCsvConfig, false⟩ (by decide)
  exact ⟨h.1, h.2.1, h.2.2.1 (.ok "test.csv"),
    h.2.2.2 trivEngine (.ok "test.csv") ⟨[], [], []⟩ (.eager ⟨[[1]]⟩)⟩

/-- Claim C1: for every accepted format and every materialized dataframe,
saving and then loading and forcing the lazy result yields a value equal to
the original modulo the format coercion relation `R` of the external engine
(the round-trip hypotheses `hrtL`/`hrtR`), on local and remote protocols
alike. -/
theorem c1_save_load_roundtrip
    (e : Engine) (R : DataFrame → DataFrame → Prop) (cfg : Config)
    (fs : FileSystem) (df : DataFrame) (p : String)
    (hfmt : ACCEPTED_FILE_FORMATS.contains cfg.file_format = true)
    (hhttp : HTTP_PROTOCOLS.contains cfg.protocol = false)
    (hnodir : fs.isDir p = false)
    (hnopart : dictContains cfg.save_args "partition_cols" = false)
    (hrtL : ∀ d, R (e.scanCollect cfg.file_format
        (e.write cfg.file_format d cfg.save_args) cfg.load_args) d)
    (hrtR : ∀ d, R (e.remoteCollect cfg.file_format
        (e.write cfg.file_format d cfg.save_args)) d) :
    ∃ fs', PolarsDataset.save e cfg (.ok p) fs (.eager df) = (.ok (), fs') ∧
      ∃ lf, PolarsDataset.load cfg (.ok p) = .ok lf ∧
        ∃ d, forceEval e fs' lf = some d ∧ R d df := by
  have hmem : cfg.protocol ∉ HTTP_PROTOCOLS := by
    simpa using hhttp
  have hpath : get_filepath_str p cfg.protocol = p := by
    simp [get_filepath_str, hmem]
  have hscanm : ("scan_" ++ cfg.file_format) ∈ pl_module_attrs := by
    simpa using scan_attr_of_accepted hfmt
  have hwm : ("write_" ++ cfg.file_format) ∈ df_write_attrs := by
    simpa using write_attr_of_accepted hfmt
  refine ⟨(fs.write p (e.write cfg.file_format df cfg.save_args)).invalidate_cache
      (get_filepath_str cfg.filepath cfg.protocol), ?_, ?_⟩
  · simp [PolarsDataset.save, hpath, hnodir, hnopart, hwm, PolarsFrameArg.collect]
  · by_cases hp : cfg.protocol = "file"
    · refine ⟨.scan cfg.file_format p cfg.load_args, ?_, ?_⟩
      · simp [PolarsDataset.load, hp, hscanm]
      · refine ⟨_, ?_, hrtL df⟩
        simp [forceEval, read_write_invalidate]
    · refine ⟨.scanPyarrowDataset
          ⟨p, cfg.file_format, cfg.protocol, cfg.storage_options⟩, ?_, ?_⟩
      · simp [PolarsDataset.load, hp]
      · refine ⟨_, ?_, hrtR df⟩
        simp [forceEval, read_write_invalidate]

/-- Concrete instantiation of the C1 theorem: a two-row dataframe saved as
local csv through the trivial engine reloads, after forcing, to exactly the
original value. -/
theorem c1_witness :
    ∃ fs', PolarsDataset.save trivEngine localCsvConfig (.ok "test.csv")
        ⟨[], [], []⟩ (.eager ⟨[[1, 2], [3, 4]]⟩) = (.ok (), fs') ∧
      ∃ lf, PolarsDataset.load localCsvConfig (.ok "test.csv") = .ok lf ∧
        ∃ d, forceEval trivEngine fs' lf = some d ∧ d = ⟨[[1, 2], [3, 4]]⟩ :=
  c1_save_load_roundtrip trivEngine (fun a b => a = b) localCsvConfig
    ⟨[], [], []⟩ ⟨[[1, 2], [3, 4]]⟩ "test.csv"
    (by decide) (by decide) (by decide) (by decide)
    (fun d => rfl) (fun d => rfl)

end PolarsSpec
